import Mathlib

/-!
Verification of the AptiPro student backend (`app.py`, class `StudentAPI`).

The service is a stateless HTTP layer over a relational store.  We embed:
  * JSON request values (`JVal`) with Python truthiness and equality;
  * the request-field validator `_validate_required_fields`;
  * the response-identifier function `_generate_response_id`
    (Python `pow(int(test_id), -1, 1000000007)` with its try/except routing);
  * the marks calculator `_calculate_marks`;
  * the database state (`DB`: students, departments, subjects, results) and the
    handlers `signup`, `login`, `submit_test`, `update_profile` as pure
    state-passing functions returning an HTTP response and the new state.

External collaborators (the Fernet cipher, the SQL engine's driver) are
modelled as parameters or as pure operations on the embedded tables.
-/

/-- A JSON value as carried in a Python request body.  Python's numeric
cross-type equality (`True == 1`) is not modelled; the handlers only ever
compare strings and integers of matching type. -/
inductive JVal where
  | null
  | bool (b : Bool)
  | int (n : Int)
  | str (s : String)
  | list (xs : List JVal)
  | dict (xs : List (String × JVal))

mutual

/-- Structural equality of JSON values (Python `==` on JSON data). -/
def JVal.beq : JVal → JVal → Bool
  | .null, .null => true
  | .bool a, .bool b => a == b
  | .int a, .int b => a == b
  | .str a, .str b => a == b
  | .list xs, .list ys => JVal.beqList xs ys
  | .dict xs, .dict ys => JVal.beqDict xs ys
  | _, _ => false

def JVal.beqList : List JVal → List JVal → Bool
  | [], [] => true
  | x :: xs, y :: ys => JVal.beq x y && JVal.beqList xs ys
  | _, _ => false

def JVal.beqDict : List (String × JVal) → List (String × JVal) → Bool
  | [], [] => true
  | (k, v) :: xs, (l, w) :: ys => k == l && JVal.beq v w && JVal.beqDict xs ys
  | _, _ => false

end

instance : BEq JVal := ⟨JVal.beq⟩

/-- Python truthiness of a JSON value: `None`, `False`, `0`, `""`, `[]` and
`{}` are falsy, everything else is truthy. -/
def pyTruthy : JVal → Bool
  | .null => false
  | .bool b => b
  | .int n => n != 0
  | .str s => s != ""
  | .list xs => !xs.isEmpty
  | .dict xs => !xs.isEmpty

/-- A parsed JSON request body (`request.get_json()`): a dictionary with
string keys.  Keys are unique in a Python dict; lookup takes the first
binding. -/
abbrev PyDict := List (String × JVal)

/-- Subscript access `data[k]` on a request dict, used by the handlers only
after validation has established that the key is present and truthy (so the
`.null` default is never reached on the executed paths). -/
def jGetD (data : PyDict) (k : String) : JVal :=
  (data.lookup k).getD .null

/-- The `{"success": ..., "message": ...}` payload returned by the
validator. -/
structure ApiMessage where
  success : Bool
  message : String
deriving DecidableEq

/-- The per-field test of the validator's list comprehension:
`field not in data or not data[field]`. -/
def fieldMissing (data : PyDict) (field : String) : Bool :=
  match data.lookup field with
  | none => true
  | some v => !pyTruthy v

/-- Embeds `StudentAPI._validate_required_fields` (app.py lines 86-94):
collects every required field that is absent from the dict or whose value is
falsy, and reports them all in one failure message; returns `none` (Python
`None`) when no field is missing. -/
def _validate_required_fields (data : PyDict) (required_fields : List String) :
    Option ApiMessage :=
  let missing_fields := required_fields.filter fun field => fieldMissing data field
  if !missing_fields.isEmpty then
    some { success := false,
           message := "Missing required fields: " ++ String.intercalate ", " missing_fields }
  else
    none

/-- Python exceptions raised inside `_generate_response_id`'s try block. -/
inductive PyErr where
  | valueError (msg : String)
  | typeError (msg : String)
  | keyError (key : String)
deriving DecidableEq

/-- The `str(e)` rendering of a Python exception. -/
def pyErrStr : PyErr → String
  | .valueError msg => msg
  | .typeError msg => msg
  | .keyError key => "'" ++ key ++ "'"

/-- Reads a nonempty all-decimal-digit character list as a number. -/
def decDigitsAux : List Char → Nat → Option Nat
  | [], acc => some acc
  | c :: cs, acc => if c.isDigit then decDigitsAux cs (acc * 10 + (c.toNat - 48)) else none

/-- Python `int(s)` on a string: an optional sign followed by at least one
decimal digit (surrounding whitespace and underscore separators are not
modelled; the handlers never receive them). -/
def pyIntOfString (s : String) : Option Int :=
  match s.toList with
  | [] => none
  | '-' :: cs => if cs.isEmpty then none else (decDigitsAux cs 0).map fun n => -(n : Int)
  | '+' :: cs => if cs.isEmpty then none else (decDigitsAux cs 0).map fun n => (n : Int)
  | cs => (decDigitsAux cs 0).map fun n => (n : Int)

/-- Python `int(x)` on a JSON value: integers pass through, booleans coerce
to 0/1, numeric strings parse, anything else raises (`ValueError` for a
non-numeric string, `TypeError` for other types). -/
def pyInt : JVal → Except PyErr Int
  | .int n => .ok n
  | .bool b => .ok (if b then 1 else 0)
  | .str s =>
    match pyIntOfString s with
    | some n => .ok n
    | none => .error (.valueError ("invalid literal for int() with base 10: '" ++ s ++ "'"))
  | .null => .error (.typeError "int() argument must be a string or a number, not NoneType")
  | .list _ => .error (.typeError "int() argument must be a string or a number, not list")
  | .dict _ => .error (.typeError "int() argument must be a string or a number, not dict")

/-- Python `pow(a, -1, n)`: the modular inverse of `a` modulo `n`, in
`[0, n)`, computed from the extended-Euclid Bezout coefficient; raises
`ValueError` when the modulus is 0 or when `a` is not invertible mod `n`. -/
def pyPowModInv (a : Int) (n : Nat) : Except PyErr Int :=
  if n = 0 then
    .error (.valueError "pow() 3rd argument cannot be 0")
  else if Nat.gcd (a % (n : Int)).toNat n = 1 then
    .ok ((Nat.gcdA (a % (n : Int)).toNat n) % (n : Int))
  else
    .error (.valueError "base is not invertible for the given modulus")

/-- The error raised out of `_generate_response_id`: `invalidInput` stands
for the re-raised `ValueError("test_id must be an integer")`, and
`computationError` for the re-raised generic
`Exception("Error generating response ID: ...")`. -/
inductive RespIdErr where
  | invalidInput
  | computationError (msg : String)
deriving DecidableEq

/-- The `str(e)` rendering of a `_generate_response_id` error. -/
def respIdErrStr : RespIdErr → String
  | .invalidInput => "test_id must be an integer"
  | .computationError msg => msg

/-- Embeds `StudentAPI._generate_response_id` (app.py lines 96-104):
`pow(int(test_id), -1, 1000000007)` inside a try block whose
`except ValueError` clause re-raises `ValueError("test_id must be an
integer")` and whose `except Exception` clause re-raises a generic
exception.  Any `ValueError` from the body — from `int()` as well as from a
non-invertible base in `pow()` — lands in the first clause. -/
def _generate_response_id (test_id : JVal) : Except RespIdErr Int :=
  match (pyInt test_id).bind (fun n => pyPowModInv n 1000000007) with
  | .ok r => .ok r
  | .error (.valueError _) => .error .invalidInput
  | .error e => .error (.computationError ("Error generating response ID: " ++ pyErrStr e))

/-- Discriminates the `computationError` outcome of `_generate_response_id`. -/
def isComputationErrorResult : Except RespIdErr Int → Bool
  | .error (.computationError _) => true
  | _ => false

/-- One element of the `responses` array submitted with a test: the two keys
`_calculate_marks` reads. -/
structure ResponseItem where
  selected_option : JVal
  correct_option : JVal

/-- Embeds `StudentAPI._calculate_marks` (app.py lines 106-108):
`sum(1 for item in responses if item["selected_option"] ==
item["correct_option"])`. -/
def _calculate_marks (responses : List ResponseItem) : Nat :=
  ((responses.filter fun item => item.selected_option == item.correct_option).map
    fun _ => 1).sum

example : _calculate_marks [⟨.str "A", .str "A"⟩, ⟨.str "B", .str "C"⟩] = 1 := by decide

example : _validate_required_fields [("id", .int 0), ("name", .str "x")] ["id", "name"] =
    some { success := false, message := "Missing required fields: id" } := by decide

example : _generate_response_id (.int 0) = .error .invalidInput := rfl

example : _generate_response_id (.str "abc") = .error .invalidInput := rfl

example : _generate_response_id .null =
    .error (.computationError
      "Error generating response ID: int() argument must be a string or a number, not NoneType") :=
  rfl

/-- Subscript access `v[k]` on an arbitrary JSON value: a dict yields the
bound value or raises `KeyError`; any other value raises `TypeError`. -/
def jIndex : JVal → String → Except PyErr JVal
  | .dict xs, k =>
    match xs.lookup k with
    | some v => .ok v
    | none => .error (.keyError k)
  | _, _ => .error (.typeError "value is not subscriptable by a string key")

/-- Reads one element of the submitted `responses` array, fetching the
`selected_option` and `correct_option` keys the way `_calculate_marks`
does. -/
def toResponseItem (v : JVal) : Except PyErr ResponseItem := do
  let s ← jIndex v "selected_option"
  let c ← jIndex v "correct_option"
  .ok { selected_option := s, correct_option := c }

/-- Reads the submitted `responses` value as an array of response items;
anything other than an array of dicts raises. -/
def toResponseItems : JVal → Except PyErr (List ResponseItem)
  | .list xs => xs.mapM toResponseItem
  | _ => .error (.typeError "responses is not an array of response objects")

/-- A row of the `students` table.  Columns written straight from request
JSON keep the dynamic value type; `password` holds the Fernet ciphertext
blob; `verified` defaults to false on insert and is flipped by `verify`. -/
structure StudentRow where
  id : JVal
  email : JVal
  name : JVal
  dept_name : JVal
  password : String
  verified : Bool

/-- A row of the `subjects` table. -/
structure SubjectRow where
  subject_name : JVal
  dept_name : JVal

/-- A row of the `results` table, as inserted by `submit_test`.  The `data`
column stores `json.dumps(responses)`; serialization is external, so the
column is modelled by the value itself. -/
structure ResultRow where
  id : Int
  name : JVal
  marks : Nat
  total_marks : JVal
  difficulty : JVal
  subject : JVal
  student_email : JVal
  teacher_email : JVal
  data : JVal
  test_id : JVal

/-- The relational store: the four tables the embedded handlers touch.
`departments` holds the `department_name` column of the `department`
table. -/
structure DB where
  students : List StudentRow
  departments : List JVal
  subjects : List SubjectRow
  results : List ResultRow

/-- An HTTP response: status code plus the `{"success", "message"}` JSON
body; 500 responses additionally surface the raw exception text in an
`error` field. -/
structure HttpResp where
  status : Nat
  success : Bool
  message : String
  error : Option String := none

/-- The `user` payload assembled by a successful login. -/
structure UserData where
  id : JVal
  email : JVal
  name : JVal
  department : JVal
  verified : Bool
  subjects : List JVal
  tests_done : Nat
  average_score : Rat
  recent_results : List ResultRow

/-- A login response: status plus body, with the `user` payload present on
success. -/
structure LoginResp where
  status : Nat
  success : Bool
  message : String
  error : Option String := none
  user : Option UserData := none

/-- Python `round(x, 2)` on the average score (modelled over ℚ; the
half-to-even tie behaviour of binary floats is immaterial here). -/
def round2 (q : Rat) : Rat :=
  ((round (q * 100) : Int) : Rat) / 100

/-- Inserts a result row into a list kept in descending order of `id`. -/
def insertDescById (r : ResultRow) : List ResultRow → List ResultRow
  | [] => [r]
  | x :: xs => if r.id ≥ x.id then r :: x :: xs else x :: insertDescById r xs

/-- Sorts result rows by `id` descending (`ORDER BY id DESC`). -/
def sortDescById : List ResultRow → List ResultRow
  | [] => []
  | x :: xs => insertDescById x (sortDescById xs)

/-- Embeds `StudentAPI.signup` (app.py lines 110-165).  The Fernet cipher is
external and passed as `encrypt_data` (source: `self.encrypt_data` applied
to the submitted password).  Returns the HTTP response and the resulting
database state. -/
def signup (encrypt_data : JVal → String) (data : PyDict) (db : DB) : HttpResp × DB :=
  match _validate_required_fields data ["id", "name", "email", "password", "department"] with
  | some ve => ({ status := 400, success := ve.success, message := ve.message }, db)
  | none =>
    if db.students.any (fun s => s.email == jGetD data "email" || s.id == jGetD data "id") then
      ({ status := 400, success := false, message := "Email or ID already exists" }, db)
    else if !(db.departments.any fun d => d == jGetD data "department") then
      ({ status := 400, success := false, message := "Invalid department" }, db)
    else
      let encrypted_password := encrypt_data (jGetD data "password")
      let row : StudentRow :=
        { id := jGetD data "id", email := jGetD data "email", name := jGetD data "name",
          dept_name := jGetD data "department", password := encrypted_password,
          verified := false }
      ({ status := 201, success := true, message := "Student account created successfully" },
       { db with students := db.students ++ [row] })

/-- Embeds `StudentAPI.login` (app.py lines 209-302).  The Fernet cipher is
external and passed as `decrypt_data`; a `none` result stands for a raised
decryption error, which the handler boundary turns into a 500.  Login never
mutates the store, so only the response is returned. -/
def login (decrypt_data : String → Option String) (data : PyDict) (db : DB) : LoginResp :=
  match _validate_required_fields data ["email", "password"] with
  | some ve => { status := 400, success := ve.success, message := ve.message }
  | none =>
    match db.students.find? (fun s => s.email == jGetD data "email") with
    | none => { status := 401, success := false, message := "Invalid email or password" }
    | some student =>
      match decrypt_data student.password with
      | none => { status := 500, success := false, message := "An error occurred during login",
                  error := some "decryption failed" }
      | some decrypted_password =>
        if jGetD data "password" != JVal.str decrypted_password then
          { status := 401, success := false, message := "Invalid email or password" }
        else if !student.verified then
          { status := 403, success := false,
            message := "Account not verified. Please check your email." }
        else
          let subjects := (db.subjects.filter fun su => su.dept_name == student.dept_name).map
            fun su => su.subject_name
          let myResults := db.results.filter fun r => r.student_email == jGetD data "email"
          let tests_submitted := myResults.length
          let total_score := (myResults.map fun r => r.marks).sum
          let avg_score : Rat :=
            if tests_submitted > 0 then (total_score : Rat) / (tests_submitted : Rat) * 100 else 0
          { status := 200, success := true, message := "Login successful",
            user := some
              { id := student.id, email := student.email, name := student.name,
                department := student.dept_name, verified := student.verified,
                subjects := subjects, tests_done := tests_submitted,
                average_score := round2 avg_score,
                recent_results := (sortDescById myResults).take 10 } }

/-- The body of `submit_test`'s try block after validation: reads
`test['id']`, computes the response id and the marks, reads the remaining
request fields, and builds the `results` row to insert — in the evaluation
order of the source.  Note the row depends only on the request, never on the
database state. -/
def submitRow (user test responses : JVal) : Except String ResultRow :=
  match jIndex test "id" with
  | .error e => .error (pyErrStr e)
  | .ok tid =>
  match _generate_response_id tid with
  | .error e => .error (respIdErrStr e)
  | .ok response_id =>
  match toResponseItems responses with
  | .error e => .error (pyErrStr e)
  | .ok items =>
  match jIndex test "name" with
  | .error e => .error (pyErrStr e)
  | .ok tname =>
  match jIndex test "marks" with
  | .error e => .error (pyErrStr e)
  | .ok tmarks =>
  match jIndex test "difficulty" with
  | .error e => .error (pyErrStr e)
  | .ok tdiff =>
  match jIndex test "subject" with
  | .error e => .error (pyErrStr e)
  | .ok tsubj =>
  match jIndex user "email" with
  | .error e => .error (pyErrStr e)
  | .ok uemail =>
  match jIndex test "teacher" with
  | .error e => .error (pyErrStr e)
  | .ok tteacher =>
  .ok { id := response_id, name := tname, marks := _calculate_marks items,
        total_marks := tmarks, difficulty := tdiff, subject := tsubj,
        student_email := uemail, teacher_email := tteacher, data := responses,
        test_id := tid }

/-- Embeds `StudentAPI.submit_test` (app.py lines 382-422): validates the
request, computes the result row, inserts it (the insert appends; the
deterministic id means a duplicate submission produces a duplicate key for
the store to reject — not modelled, the embedded table is a plain list), and
answers 201; any exception from the body rolls back and answers 500. -/
def submit_test (data : PyDict) (db : DB) : HttpResp × DB :=
  match _validate_required_fields data ["user", "test", "responses"] with
  | some ve => ({ status := 400, success := ve.success, message := ve.message }, db)
  | none =>
    match submitRow (jGetD data "user") (jGetD data "test") (jGetD data "responses") with
    | .ok row =>
      ({ status := 201, success := true, message := "Test submitted successfully" },
       { db with results := db.results ++ [row] })
    | .error e =>
      ({ status := 500, success := false, message := "An error occurred during test submission",
         error := some e }, db)

/-- Embeds `StudentAPI.update_profile` (app.py lines 461-494): validates the
request, re-encrypts the password, and overwrites every `students` row whose
`id` matches (possibly none) — then answers 200 unconditionally; there is no
zero-rows-matched check and no 404 path. -/
def update_profile (encrypt_data : JVal → String) (data : PyDict) (db : DB) : HttpResp × DB :=
  match _validate_required_fields data ["id", "name", "email", "department", "password"] with
  | some ve => ({ status := 400, success := ve.success, message := ve.message }, db)
  | none =>
    let encrypted_password := encrypt_data (jGetD data "password")
    let students2 := db.students.map fun s =>
      if s.id == jGetD data "id" then
        { s with name := jGetD data "name", email := jGetD data "email",
                 dept_name := jGetD data "department", password := encrypted_password }
      else s
    ({ status := 200, success := true, message := "Profile updated successfully" },
     { db with students := students2 })

/-! ## Helper lemmas -/

/-- The marks calculator is the count of items whose selected option equals
the correct option. -/
theorem calculate_marks_eq_countP (rs : List ResponseItem) :
    _calculate_marks rs = rs.countP fun r => r.selected_option == r.correct_option := by
  induction rs with
  | nil => rfl
  | cons r rs ih =>
    by_cases h : (r.selected_option == r.correct_option) = true
    · simp only [_calculate_marks, List.filter_cons, List.countP_cons, h, if_pos,
        List.map_cons, List.sum_cons] at *
      omega
    · simp only [_calculate_marks, List.filter_cons, List.countP_cons, h] at *
      simp only [Bool.false_eq_true, if_false] at *
      omega

/-- The validator succeeds exactly when no required field fails the
per-field test. -/
theorem validate_eq_none_iff (data : PyDict) (req : List String) :
    _validate_required_fields data req = none ↔ ∀ f ∈ req, fieldMissing data f = false := by
  unfold _validate_required_fields
  by_cases h : req.filter (fun field => fieldMissing data field) = []
  · simp only [h, List.isEmpty_nil, Bool.not_true, if_neg, Bool.false_eq_true, if_false]
    constructor
    · intro _ f hf
      have := List.filter_eq_nil_iff.mp h f hf
      simpa using this
    · intro _; trivial
  · have hne : (req.filter fun field => fieldMissing data field).isEmpty = false := by
      rcases hx : req.filter (fun field => fieldMissing data field) with _ | ⟨a, l⟩
      · exact absurd hx h
      · rfl
    simp only [hne, Bool.not_false, if_pos]
    constructor
    · intro hc; exact absurd hc (by simp)
    · intro hall
      exfalso
      apply h
      exact List.filter_eq_nil_iff.mpr fun f hf => by simp [hall f hf]

/-- When the validator fails, it fails with `success := false` and a single
message listing exactly the required fields that fail the per-field test. -/
theorem validate_eq_some (data : PyDict) (req : List String) (m : ApiMessage)
    (h : _validate_required_fields data req = some m) :
    m = { success := false,
          message := "Missing required fields: " ++
            String.intercalate ", " (req.filter fun field => fieldMissing data field) } := by
  unfold _validate_required_fields at h
  by_cases hf : (req.filter fun field => fieldMissing data field).isEmpty
  · simp [hf] at h
  · simp only [hf, Bool.not_false, if_pos] at h
    exact (Option.some_inj.mp h).symm

/-! ## C6 — marks calculator -/

/-- C6: the marks calculator returns 0 for an empty response list, returns N
for a list of N items in which every selected option equals its correct
option, and in general returns exactly the count of items whose selected
option equals its correct option (no marks are added or subtracted for
anything else). -/
theorem calculate_marks_spec :
    _calculate_marks [] = 0 ∧
    (∀ rs : List ResponseItem,
      (∀ r ∈ rs, (r.selected_option == r.correct_option) = true) →
      _calculate_marks rs = rs.length) ∧
    (∀ rs : List ResponseItem,
      _calculate_marks rs = rs.countP fun r => r.selected_option == r.correct_option) := by
  refine ⟨rfl, fun rs hall => ?_, calculate_marks_eq_countP⟩
  rw [calculate_marks_eq_countP]
  exact List.countP_eq_length.mpr hall

/-- C6 witness: a two-item list with both options matching scores 2, and a
mixed list scores exactly its match count (1). -/
theorem calculate_marks_spec_witness :
    _calculate_marks [⟨.str "A", .str "A"⟩, ⟨.str "C", .str "C"⟩] = 2 ∧
    _calculate_marks [⟨.str "A", .str "B"⟩, ⟨.str "C", .str "C"⟩] =
      List.countP (fun r : ResponseItem => r.selected_option == r.correct_option)
        ([⟨.str "A", .str "B"⟩, ⟨.str "C", .str "C"⟩] : List ResponseItem) :=
  ⟨calculate_marks_spec.2.1 [⟨.str "A", .str "A"⟩, ⟨.str "C", .str "C"⟩] (by decide),
   calculate_marks_spec.2.2 [⟨.str "A", .str "B"⟩, ⟨.str "C", .str "C"⟩]⟩

/-! ## C7 — field validator contract -/

/-- The spec-side notion of a missing field from claim C7: the key is absent
from the mapping, or bound to null, or bound to the empty string. -/
def specMissingField (data : PyDict) (field : String) : Bool :=
  match data.lookup field with
  | none => true
  | some v => v == JVal.null || v == JVal.str ""

/-- C7 counterexample: a mapping binding the required field `id` to the
integer 0 has no field that is absent, null or empty-string, yet the
validator reports a failure naming `id` — so the validator does not signal
success exactly when no required field is missing in the claim's sense. -/
theorem validator_fails_without_spec_missing_field :
    specMissingField [("id", JVal.int 0)] "id" = false ∧
    _validate_required_fields [("id", JVal.int 0)] ["id"] =
      some { success := false, message := "Missing required fields: id" } :=
  ⟨rfl, rfl⟩

/-- C7 (amended): the validator treats a required field as missing exactly
when it is absent from the mapping or bound to a falsy value (null, empty
string, 0, false, empty collection) — these cases uniformly; it reports all
such omissions in a single failure message, and it signals success exactly
when no required field is missing in that sense. -/
theorem validator_success_iff_no_missing_field (data : PyDict) (req : List String) :
    (_validate_required_fields data req = none ↔ ∀ f ∈ req, fieldMissing data f = false) ∧
    (∀ m, _validate_required_fields data req = some m →
      m = { success := false,
            message := "Missing required fields: " ++
              String.intercalate ", " (req.filter fun field => fieldMissing data field) }) :=
  ⟨validate_eq_none_iff data req, fun m h => validate_eq_some data req m h⟩

/-- C7 witness: on a mapping with one empty-string field and one absent
field, the validator fails with the single message naming both. -/
theorem validator_success_iff_no_missing_field_witness :
    (_validate_required_fields [("a", JVal.str "")] ["a", "b"] = none ↔
      ∀ f ∈ ["a", "b"], fieldMissing [("a", JVal.str "")] f = false) ∧
    ({ success := false, message := "Missing required fields: a, b" } : ApiMessage) =
      { success := false,
        message := "Missing required fields: " ++
          String.intercalate ", "
            (["a", "b"].filter fun field => fieldMissing [("a", JVal.str "")] field) } :=
  ⟨(validator_success_iff_no_missing_field [("a", JVal.str "")] ["a", "b"]).1,
   (validator_success_iff_no_missing_field [("a", JVal.str "")] ["a", "b"]).2
     { success := false, message := "Missing required fields: a, b" } (by decide)⟩

/-! ## C9 — falsy field values are treated as missing -/

/-- C9: the validator treats every falsy value — not only the empty string
and null — as missing: the integer 0, the boolean false and the empty array
are falsy, any required field bound to a falsy value makes validation fail
with that field listed, and in particular a signup request with `id = 0` is
rejected with a 400 validation failure and no change to the store. -/
theorem falsy_required_field_rejected :
    pyTruthy (JVal.int 0) = false ∧ pyTruthy (JVal.bool false) = false ∧
    pyTruthy (JVal.list []) = false ∧
    (∀ (data : PyDict) (req : List String) (f : String) (v : JVal),
      f ∈ req → data.lookup f = some v → pyTruthy v = false →
      f ∈ req.filter (fun field => fieldMissing data field) ∧
      _validate_required_fields data req ≠ none) ∧
    (∀ (encrypt : JVal → String) (data : PyDict) (db : DB),
      data.lookup "id" = some (JVal.int 0) →
      (signup encrypt data db).1.status = 400 ∧ (signup encrypt data db).2 = db) := by
  refine ⟨rfl, rfl, rfl, fun data req f v hf hl hv => ?_, fun encrypt data db hid => ?_⟩
  · have hmiss : fieldMissing data f = true := by
      unfold fieldMissing
      rw [hl]
      simp [hv]
    refine ⟨List.mem_filter.mpr ⟨hf, hmiss⟩, fun hnone => ?_⟩
    have := (validate_eq_none_iff data req).mp hnone f hf
    rw [hmiss] at this
    exact Bool.true_eq_false.mp this
  · have hmiss : fieldMissing data "id" = true := by
      unfold fieldMissing
      rw [hid]
      rfl
    have hne : _validate_required_fields data ["id", "name", "email", "password", "department"] ≠
        none := fun hnone => by
      have := (validate_eq_none_iff data _).mp hnone "id" (by decide)
      rw [hmiss] at this
      exact Bool.true_eq_false.mp this
    rcases hm : _validate_required_fields data ["id", "name", "email", "password", "department"]
      with _ | m
    · exact absurd hm hne
    · constructor
      · show (signup encrypt data db).1.status = 400
        unfold signup
        rw [hm]
      · show (signup encrypt data db).2 = db
        unfold signup
        rw [hm]

/-- C9 witness: a signup request with `id = 0` (all other fields present and
truthy) is rejected with 400 and the empty store is unchanged. -/
theorem falsy_required_field_rejected_witness :
    (signup (fun _ => "blob")
      [("id", JVal.int 0), ("name", JVal.str "Ada"), ("email", JVal.str "a@x.com"),
       ("password", JVal.str "pw"), ("department", JVal.str "CS")]
      { students := [], departments := [JVal.str "CS"], subjects := [], results := [] }).1.status
        = 400 ∧
    (signup (fun _ => "blob")
      [("id", JVal.int 0), ("name", JVal.str "Ada"), ("email", JVal.str "a@x.com"),
       ("password", JVal.str "pw"), ("department", JVal.str "CS")]
      { students := [], departments := [JVal.str "CS"], subjects := [], results := [] }).2
        = { students := [], departments := [JVal.str "CS"], subjects := [], results := [] } :=
  falsy_required_field_rejected.2.2.2.2 (fun _ => "blob")
    [("id", JVal.int 0), ("name", JVal.str "Ada"), ("email", JVal.str "a@x.com"),
     ("password", JVal.str "pw"), ("department", JVal.str "CS")]
    { students := [], departments := [JVal.str "CS"], subjects := [], results := [] } rfl

/-! ## C1 — error routing of the response-identifier function -/

/-- C1 counterexample: `modular_inverse(0)` does not fail with the distinct
ComputationError the claim describes — the no-inverse `ValueError` raised by
`pow(0, -1, p)` is caught by the `except ValueError` clause, so the call
fails with the same InvalidInput error as a non-integer input. -/
theorem responseId_zero_not_computationError :
    isComputationErrorResult (_generate_response_id (JVal.int 0)) = false ∧
    _generate_response_id (JVal.int 0) = .error .invalidInput :=
  ⟨rfl, rfl⟩

/-- C1 (amended): the response-identifier function fails with the
InvalidInput error (`ValueError("test_id must be an integer")`) both when
`test_id` is a non-numeric string and when `test_id` is an integer congruent
to 0 modulo 1,000,000,007 — the no-inverse `ValueError` lands in the same
`except ValueError` clause; the distinct ComputationError arises only for
non-`ValueError` exceptions, e.g. a `test_id` of a type `int()` rejects.
In particular `modular_inverse(0)` and `modular_inverse("abc")` raise the
same InvalidInput error. -/
theorem responseId_error_routing :
    (∀ s : String, pyIntOfString s = none →
      _generate_response_id (JVal.str s) = .error .invalidInput) ∧
    (∀ t : Int, t % (1000000007 : Int) = 0 →
      _generate_response_id (JVal.int t) = .error .invalidInput) ∧
    _generate_response_id JVal.null = .error (.computationError
      "Error generating response ID: int() argument must be a string or a number, not NoneType") := by
  refine ⟨fun s hs => ?_, fun t ht => ?_, rfl⟩
  · have hpi : pyInt (JVal.str s) =
        .error (.valueError ("invalid literal for int() with base 10: '" ++ s ++ "'")) := by
      simp only [pyInt, hs]
    simp only [_generate_response_id, hpi, Except.bind]
  · have ht2 : t % ((1000000007 : Nat) : Int) = 0 := by exact_mod_cast ht
    have hpow : pyPowModInv t 1000000007 =
        .error (.valueError "base is not invertible for the given modulus") := by
      unfold pyPowModInv
      rw [if_neg (by norm_num : ¬(1000000007 : Nat) = 0), ht2]
      norm_num
    have hpi : pyInt (JVal.int t) = .ok t := rfl
    simp only [_generate_response_id, hpi, Except.bind, hpow]

/-- C1 witness: the amended routing at the claim's own concrete inputs,
`"abc"` and `0`. -/
theorem responseId_error_routing_witness :
    _generate_response_id (JVal.str "abc") = .error .invalidInput ∧
    _generate_response_id (JVal.int 0) = .error .invalidInput :=
  ⟨responseId_error_routing.1 "abc" rfl, responseId_error_routing.2.1 0 rfl⟩

/-! ## C2 — login checks the password before the verified flag -/

/-- C2 counterexample: a login request naming an unverified account but
carrying a wrong password is answered 401 (invalid credentials), not 403 —
the handler compares the password before it looks at the verified flag. -/
theorem login_unverified_wrong_password_401 :
    (login (fun s => some s)
      [("email", JVal.str "a@x.com"), ("password", JVal.str "wrong")]
      { students := [{ id := JVal.int 1, email := JVal.str "a@x.com", name := JVal.str "Ada",
                       dept_name := JVal.str "CS", password := "secret", verified := false }],
        departments := [JVal.str "CS"], subjects := [], results := [] }).status = 401 ∧
    (login (fun s => some s)
      [("email", JVal.str "a@x.com"), ("password", JVal.str "wrong")]
      { students := [{ id := JVal.int 1, email := JVal.str "a@x.com", name := JVal.str "Ada",
                       dept_name := JVal.str "CS", password := "secret", verified := false }],
        departments := [JVal.str "CS"], subjects := [], results := [] }).status ≠ 403 :=
  ⟨rfl, by decide⟩

/-- C2 (amended): a login request naming an unverified account is answered
403 with the account-not-verified failure when the submitted password
matches the stored password; with a non-matching password the handler
answers 401 before ever reaching the verified check. -/
theorem login_unverified_matching_password_403 (decrypt : String → Option String)
    (data : PyDict) (db : DB) (student : StudentRow) (pw : String)
    (hval : _validate_required_fields data ["email", "password"] = none)
    (hfind : db.students.find? (fun s => s.email == jGetD data "email") = some student)
    (hdec : decrypt student.password = some pw)
    (hpw : (jGetD data "password" != JVal.str pw) = false)
    (hver : student.verified = false) :
    login decrypt data db =
      { status := 403, success := false,
        message := "Account not verified. Please check your email." } := by
  simp only [login, hval, hfind, hdec, hpw, hver, Bool.not_false, if_true,
    Bool.false_eq_true, if_false]

/-- C2 witness: an unverified account with the correct password is answered
403 with the account-not-verified message. -/
theorem login_unverified_matching_password_403_witness :
    login (fun s => some s)
      [("email", JVal.str "a@x.com"), ("password", JVal.str "secret")]
      { students := [{ id := JVal.int 1, email := JVal.str "a@x.com", name := JVal.str "Ada",
                       dept_name := JVal.str "CS", password := "secret", verified := false }],
        departments := [JVal.str "CS"], subjects := [], results := [] } =
      { status := 403, success := false,
        message := "Account not verified. Please check your email." } :=
  login_unverified_matching_password_403 (fun s => some s)
    [("email", JVal.str "a@x.com"), ("password", JVal.str "secret")]
    { students := [{ id := JVal.int 1, email := JVal.str "a@x.com", name := JVal.str "Ada",
                     dept_name := JVal.str "CS", password := "secret", verified := false }],
      departments := [JVal.str "CS"], subjects := [], results := [] }
    { id := JVal.int 1, email := JVal.str "a@x.com", name := JVal.str "Ada",
      dept_name := JVal.str "CS", password := "secret", verified := false }
    "secret" rfl rfl rfl rfl rfl

/-! ## C4 — duplicate-email signup is rejected without inserting -/

/-- C4: a signup request that passes field validation but whose email
already appears in the students table is answered 400 "Email or ID already
exists" and the database — the students table in particular — is left
unchanged. -/
theorem signup_duplicate_email_400 (encrypt : JVal → String) (data : PyDict) (db : DB)
    (hval : _validate_required_fields data ["id", "name", "email", "password", "department"]
      = none)
    (hdup : ∃ s ∈ db.students, (s.email == jGetD data "email") = true) :
    signup encrypt data db =
      ({ status := 400, success := false, message := "Email or ID already exists" }, db) := by
  have hany : (db.students.any fun s =>
      s.email == jGetD data "email" || s.id == jGetD data "id") = true := by
    rcases hdup with ⟨s, hs, he⟩
    exact List.any_eq_true.mpr ⟨s, hs, by simp [he]⟩
  simp only [signup, hval, hany, if_true]

/-- C4 witness: with one student whose email is `a@x.com` on file, a fully
populated signup request for the same email is answered 400 and the store is
returned unchanged. -/
theorem signup_duplicate_email_400_witness :
    signup (fun _ => "blob")
      [("id", JVal.int 2), ("name", JVal.str "Bob"), ("email", JVal.str "a@x.com"),
       ("password", JVal.str "pw"), ("department", JVal.str "CS")]
      { students := [{ id := JVal.int 1, email := JVal.str "a@x.com", name := JVal.str "Ada",
                       dept_name := JVal.str "CS", password := "blob0", verified := true }],
        departments := [JVal.str "CS"], subjects := [], results := [] } =
      ({ status := 400, success := false, message := "Email or ID already exists" },
       { students := [{ id := JVal.int 1, email := JVal.str "a@x.com", name := JVal.str "Ada",
                        dept_name := JVal.str "CS", password := "blob0", verified := true }],
         departments := [JVal.str "CS"], subjects := [], results := [] }) :=
  signup_duplicate_email_400 (fun _ => "blob")
    [("id", JVal.int 2), ("name", JVal.str "Bob"), ("email", JVal.str "a@x.com"),
     ("password", JVal.str "pw"), ("department", JVal.str "CS")]
    { students := [{ id := JVal.int 1, email := JVal.str "a@x.com", name := JVal.str "Ada",
                     dept_name := JVal.str "CS", password := "blob0", verified := true }],
      departments := [JVal.str "CS"], subjects := [], results := [] }
    rfl
    ⟨{ id := JVal.int 1, email := JVal.str "a@x.com", name := JVal.str "Ada",
       dept_name := JVal.str "CS", password := "blob0", verified := true },
     List.Mem.head _, rfl⟩

/-! ## C5 — login with zero submitted tests reports average 0 -/

/-- C5: a login by an existing, verified student with a matching password
and no rows in the results table is answered 200 with `tests_done = 0` and
`average_score = 0`; the division by `tests_submitted` is guarded by
`tests_submitted > 0`, so no division is attempted. -/
theorem login_no_results_average_zero (decrypt : String → Option String)
    (data : PyDict) (db : DB) (student : StudentRow) (pw : String)
    (hval : _validate_required_fields data ["email", "password"] = none)
    (hfind : db.students.find? (fun s => s.email == jGetD data "email") = some student)
    (hdec : decrypt student.password = some pw)
    (hpw : (jGetD data "password" != JVal.str pw) = false)
    (hver : student.verified = true)
    (hres : db.results.filter (fun r => r.student_email == jGetD data "email") = []) :
    ∃ u : UserData, login decrypt data db =
      { status := 200, success := true, message := "Login successful", user := some u } ∧
      u.tests_done = 0 ∧ u.average_score = 0 := by
  refine ⟨{ id := student.id, email := student.email, name := student.name,
            department := student.dept_name, verified := student.verified,
            subjects := (db.subjects.filter fun su => su.dept_name == student.dept_name).map
              fun su => su.subject_name,
            tests_done := 0, average_score := 0, recent_results := [] }, ?_, rfl, rfl⟩
  simp only [login, hval, hfind, hdec, hpw, hver, Bool.not_true, Bool.false_eq_true, if_false,
    hres]
  norm_num [round2, sortDescById]

/-- C5 witness: a verified student with the correct password and an empty
results table receives a 200 response carrying average score 0. -/
theorem login_no_results_average_zero_witness :
    ∃ u : UserData,
      login (fun s => some s)
        [("email", JVal.str "a@x.com"), ("password", JVal.str "secret")]
        { students := [{ id := JVal.int 1, email := JVal.str "a@x.com", name := JVal.str "Ada",
                         dept_name := JVal.str "CS", password := "secret", verified := true }],
          departments := [JVal.str "CS"], subjects := [], results := [] } =
        { status := 200, success := true, message := "Login successful", user := some u } ∧
      u.tests_done = 0 ∧ u.average_score = 0 :=
  login_no_results_average_zero (fun s => some s)
    [("email", JVal.str "a@x.com"), ("password", JVal.str "secret")]
    { students := [{ id := JVal.int 1, email := JVal.str "a@x.com", name := JVal.str "Ada",
                     dept_name := JVal.str "CS", password := "secret", verified := true }],
      departments := [JVal.str "CS"], subjects := [], results := [] }
    { id := JVal.int 1, email := JVal.str "a@x.com", name := JVal.str "Ada",
      dept_name := JVal.str "CS", password := "secret", verified := true }
    "secret" rfl rfl rfl rfl rfl rfl

/-! ## C10 — update_profile answers 200 even when no row matches -/

/-- C10: an update_profile request that passes field validation is answered
200 "Profile updated successfully" unconditionally — when no student row has
the given id the store is unchanged and the response is still 200 — and the
handler has no 404 outcome at all. -/
theorem update_profile_always_200 (encrypt : JVal → String) (data : PyDict) (db : DB) :
    (_validate_required_fields data ["id", "name", "email", "department", "password"] = none →
      (update_profile encrypt data db).1 =
        { status := 200, success := true, message := "Profile updated successfully" } ∧
      ((∀ s ∈ db.students, (s.id == jGetD data "id") = false) →
        (update_profile encrypt data db).2 = db)) ∧
    (update_profile encrypt data db).1.status ≠ 404 := by
  constructor
  · intro hval
    constructor
    · simp only [update_profile, hval]
    · intro hnomatch
      have hmap : ∀ l : List StudentRow, (∀ s ∈ l, (s.id == jGetD data "id") = false) →
          (l.map fun s =>
            if s.id == jGetD data "id" then
              { s with name := jGetD data "name", email := jGetD data "email",
                       dept_name := jGetD data "department",
                       password := encrypt (jGetD data "password") }
            else s) = l := by
        intro l hl
        induction l with
        | nil => rfl
        | cons a l ih =>
          rw [List.map_cons, hl a (List.Mem.head _), ih fun s hs => hl s (List.Mem.tail _ hs)]
          rw [if_neg (by simp)]
      simp only [update_profile, hval]
      rw [hmap db.students hnomatch]
  · rcases hm : _validate_required_fields data ["id", "name", "email", "department", "password"]
      with _ | m
    · simp only [update_profile, hm]
      norm_num
    · simp only [update_profile, hm]
      norm_num

/-- C10 witness: an update for id 7 against a store whose only student has
id 1 is answered 200, the store is unchanged, and the status is not 404. -/
theorem update_profile_always_200_witness :
    (update_profile (fun _ => "blob")
      [("id", JVal.int 7), ("name", JVal.str "Bob"), ("email", JVal.str "b@x.com"),
       ("department", JVal.str "CS"), ("password", JVal.str "pw")]
      { students := [{ id := JVal.int 1, email := JVal.str "a@x.com", name := JVal.str "Ada",
                       dept_name := JVal.str "CS", password := "blob0", verified := true }],
        departments := [JVal.str "CS"], subjects := [], results := [] }).1 =
      { status := 200, success := true, message := "Profile updated successfully" } ∧
    (update_profile (fun _ => "blob")
      [("id", JVal.int 7), ("name", JVal.str "Bob"), ("email", JVal.str "b@x.com"),
       ("department", JVal.str "CS"), ("password", JVal.str "pw")]
      { students := [{ id := JVal.int 1, email := JVal.str "a@x.com", name := JVal.str "Ada",
                       dept_name := JVal.str "CS", password := "blob0", verified := true }],
        departments := [JVal.str "CS"], subjects := [], results := [] }).2 =
      { students := [{ id := JVal.int 1, email := JVal.str "a@x.com", name := JVal.str "Ada",
                       dept_name := JVal.str "CS", password := "blob0", verified := true }],
        departments := [JVal.str "CS"], subjects := [], results := [] } ∧
    (update_profile (fun _ => "blob")
      [("id", JVal.int 7), ("name", JVal.str "Bob"), ("email", JVal.str "b@x.com"),
       ("department", JVal.str "CS"), ("password", JVal.str "pw")]
      { students := [{ id := JVal.int 1, email := JVal.str "a@x.com", name := JVal.str "Ada",
                       dept_name := JVal.str "CS", password := "blob0", verified := true }],
        departments := [JVal.str "CS"], subjects := [], results := [] }).1.status ≠ 404 :=
  ⟨((update_profile_always_200 (fun _ => "blob")
      [("id", JVal.int 7), ("name", JVal.str "Bob"), ("email", JVal.str "b@x.com"),
       ("department", JVal.str "CS"), ("password", JVal.str "pw")]
      { students := [{ id := JVal.int 1, email := JVal.str "a@x.com", name := JVal.str "Ada",
                       dept_name := JVal.str "CS", password := "blob0", verified := true }],
        departments := [JVal.str "CS"], subjects := [], results := [] }).1 rfl).1,
   ((update_profile_always_200 (fun _ => "blob")
      [("id", JVal.int 7), ("name", JVal.str "Bob"), ("email", JVal.str "b@x.com"),
       ("department", JVal.str "CS"), ("password", JVal.str "pw")]
      { students := [{ id := JVal.int 1, email := JVal.str "a@x.com", name := JVal.str "Ada",
                       dept_name := JVal.str "CS", password := "blob0", verified := true }],
        departments := [JVal.str "CS"], subjects := [], results := [] }).1 rfl).2 (by decide),
   (update_profile_always_200 (fun _ => "blob")
      [("id", JVal.int 7), ("name", JVal.str "Bob"), ("email", JVal.str "b@x.com"),
       ("department", JVal.str "CS"), ("password", JVal.str "pw")]
      { students := [{ id := JVal.int 1, email := JVal.str "a@x.com", name := JVal.str "Ada",
                       dept_name := JVal.str "CS", password := "blob0", verified := true }],
        departments := [JVal.str "CS"], subjects := [], results := [] }).2⟩

/-! ## C8 — the response identifier is deterministic -/

/-- A 201 from `submit_test` means the computed row was appended to the
results table. -/
theorem submit_ok_row (data : PyDict) (db : DB)
    (h : (submit_test data db).1.status = 201) :
    ∃ row, submitRow (jGetD data "user") (jGetD data "test") (jGetD data "responses")
      = .ok row ∧
      (submit_test data db).2.results = db.results ++ [row] := by
  rcases hv : _validate_required_fields data ["user", "test", "responses"] with _ | m
  · rcases hs : submitRow (jGetD data "user") (jGetD data "test") (jGetD data "responses")
      with e | row
    · exfalso
      simp only [submit_test, hv, hs] at h
      exact absurd h (by norm_num)
    · exact ⟨row, rfl, by simp only [submit_test, hv, hs]⟩
  · exfalso
    simp only [submit_test, hv] at h
    exact absurd h (by norm_num)

/-- The id of a successfully computed result row is exactly the response
identifier of `test['id']` — it depends on nothing else in the request. -/
theorem submitRow_id (user test responses : JVal) (row : ResultRow)
    (h : submitRow user test responses = .ok row) :
    ∃ tid y, jIndex test "id" = .ok tid ∧ _generate_response_id tid = .ok y ∧ row.id = y := by
  unfold submitRow at h
  rcases h1 : jIndex test "id" with e | tid
  · simp only [h1] at h
    exact Except.noConfusion h
  simp only [h1] at h
  rcases h2 : _generate_response_id tid with e | response_id
  · simp only [h2] at h
    exact Except.noConfusion h
  simp only [h2] at h
  refine ⟨tid, response_id, rfl, h2, ?_⟩
  rcases h3 : toResponseItems responses with e | items
  · simp only [h3] at h
    exact Except.noConfusion h
  simp only [h3] at h
  rcases h4 : jIndex test "name" with e | tname
  · simp only [h4] at h
    exact Except.noConfusion h
  simp only [h4] at h
  rcases h5 : jIndex test "marks" with e | tmarks
  · simp only [h5] at h
    exact Except.noConfusion h
  simp only [h5] at h
  rcases h6 : jIndex test "difficulty" with e | tdiff
  · simp only [h6] at h
    exact Except.noConfusion h
  simp only [h6] at h
  rcases h7 : jIndex test "subject" with e | tsubj
  · simp only [h7] at h
    exact Except.noConfusion h
  simp only [h7] at h
  rcases h8 : jIndex user "email" with e | uemail
  · simp only [h8] at h
    exact Except.noConfusion h
  simp only [h8] at h
  rcases h9 : jIndex test "teacher" with e | tteacher
  · simp only [h9] at h
    exact Except.noConfusion h
  simp only [h9] at h
  have h10 := Except.ok.inj h
  rw [← h10]

/-- C8: the response identifier is a deterministic function of the test id —
two submit_test calls whose requests carry the same `test['id']`, regardless
of everything else in the requests and of the state of the store at each
call, append result rows with the identical id. -/
theorem submit_same_test_id_same_response_id (data1 data2 : PyDict) (db1 db2 : DB)
    (hid : jIndex (jGetD data1 "test") "id" = jIndex (jGetD data2 "test") "id")
    (h1 : (submit_test data1 db1).1.status = 201)
    (h2 : (submit_test data2 db2).1.status = 201) :
    ((submit_test data1 db1).2.results.getLast?).map (fun r => r.id) =
      ((submit_test data2 db2).2.results.getLast?).map (fun r => r.id) := by
  rcases submit_ok_row data1 db1 h1 with ⟨row1, hs1, hr1⟩
  rcases submit_ok_row data2 db2 h2 with ⟨row2, hs2, hr2⟩
  rcases submitRow_id _ _ _ _ hs1 with ⟨tid1, y1, ha1, hb1, hc1⟩
  rcases submitRow_id _ _ _ _ hs2 with ⟨tid2, y2, ha2, hb2, hc2⟩
  have htid : tid1 = tid2 := by
    rw [ha1, ha2] at hid
    exact Except.ok.inj hid
  have hy : y1 = y2 := by
    rw [htid] at hb1
    rw [hb1] at hb2
    exact Except.ok.inj hb2
  rw [hr1, hr2, List.getLast?_concat, List.getLast?_concat]
  simp [hc1, hc2, hy]

/-- C8 witness: replaying the very same submission for test id 5 against the
store produced by the first submission appends a row with the identical
response id. -/
theorem submit_same_test_id_same_response_id_witness :
    (((submit_test
        [("user", JVal.dict [("email", JVal.str "a@x.com")]),
         ("test", JVal.dict [("id", JVal.int 5), ("name", JVal.str "T1"),
           ("marks", JVal.int 10), ("difficulty", JVal.str "easy"),
           ("subject", JVal.str "math"), ("teacher", JVal.str "t@x.com")]),
         ("responses", JVal.list [JVal.dict [("selected_option", JVal.str "A"),
           ("correct_option", JVal.str "A")]])]
        { students := [], departments := [], subjects := [], results := [] }).2.results.getLast?).map
          (fun r => r.id)) =
    (((submit_test
        [("user", JVal.dict [("email", JVal.str "a@x.com")]),
         ("test", JVal.dict [("id", JVal.int 5), ("name", JVal.str "T1"),
           ("marks", JVal.int 10), ("difficulty", JVal.str "easy"),
           ("subject", JVal.str "math"), ("teacher", JVal.str "t@x.com")]),
         ("responses", JVal.list [JVal.dict [("selected_option", JVal.str "A"),
           ("correct_option", JVal.str "A")]])]
        (submit_test
          [("user", JVal.dict [("email", JVal.str "a@x.com")]),
           ("test", JVal.dict [("id", JVal.int 5), ("name", JVal.str "T1"),
             ("marks", JVal.int 10), ("difficulty", JVal.str "easy"),
             ("subject", JVal.str "math"), ("teacher", JVal.str "t@x.com")]),
           ("responses", JVal.list [JVal.dict [("selected_option", JVal.str "A"),
             ("correct_option", JVal.str "A")]])]
          { students := [], departments := [], subjects := [], results := [] }).2).2.results.getLast?).map
          (fun r => r.id)) :=
  submit_same_test_id_same_response_id
    [("user", JVal.dict [("email", JVal.str "a@x.com")]),
     ("test", JVal.dict [("id", JVal.int 5), ("name", JVal.str "T1"),
       ("marks", JVal.int 10), ("difficulty", JVal.str "easy"),
       ("subject", JVal.str "math"), ("teacher", JVal.str "t@x.com")]),
     ("responses", JVal.list [JVal.dict [("selected_option", JVal.str "A"),
       ("correct_option", JVal.str "A")]])]
    [("user", JVal.dict [("email", JVal.str "a@x.com")]),
     ("test", JVal.dict [("id", JVal.int 5), ("name", JVal.str "T1"),
       ("marks", JVal.int 10), ("difficulty", JVal.str "easy"),
       ("subject", JVal.str "math"), ("teacher", JVal.str "t@x.com")]),
     ("responses", JVal.list [JVal.dict [("selected_option", JVal.str "A"),
       ("correct_option", JVal.str "A")]])]
    { students := [], departments := [], subjects := [], results := [] }
    (submit_test
      [("user", JVal.dict [("email", JVal.str "a@x.com")]),
       ("test", JVal.dict [("id", JVal.int 5), ("name", JVal.str "T1"),
         ("marks", JVal.int 10), ("difficulty", JVal.str "easy"),
         ("subject", JVal.str "math"), ("teacher", JVal.str "t@x.com")]),
       ("responses", JVal.list [JVal.dict [("selected_option", JVal.str "A"),
         ("correct_option", JVal.str "A")]])]
      { students := [], departments := [], subjects := [], results := [] }).2
    rfl rfl rfl

/-! ## C3 — the response identifier is an involution on [1, p-1] -/

/-- Fast modular exponentiation by squaring, with structural fuel so that it
evaluates by kernel reduction: `powModF fuel a n m = a ^ n % m` whenever
`n < 2 ^ fuel`. -/
def powModF : Nat → Nat → Nat → Nat → Nat
  | 0, _, _, m => 1 % m
  | fuel + 1, a, n, m =>
    if n = 0 then 1 % m
    else
      let x := powModF fuel a (n / 2) m
      if n % 2 = 0 then x * x % m
      else x * x % m * (a % m) % m

/-- Correctness of the fuelled modular exponentiation. -/
theorem powModF_spec : ∀ (fuel a n m : Nat), n < 2 ^ fuel →
    powModF fuel a n m = a ^ n % m := by
  intro fuel
  induction fuel with
  | zero =>
    intro a n m h
    have hn : n = 0 := by simpa using h
    subst hn
    rfl
  | succ fuel ih =>
    intro a n m h
    have hpow : (2 : Nat) ^ (fuel + 1) = 2 * 2 ^ fuel := by rw [pow_succ, mul_comm]
    by_cases h0 : n = 0
    · subst h0
      simp [powModF]
    · have hlt : n / 2 < 2 ^ fuel := by omega
      by_cases h2 : n % 2 = 0
      · have hn : n = 2 * (n / 2) := by omega
        simp only [powModF, h0, if_neg, ih a (n / 2) m hlt, h2, if_pos]
        conv_rhs => rw [hn, two_mul, pow_add, Nat.mul_mod]
        simp [h0]
      · have hn : n = 2 * (n / 2) + 1 := by omega
        simp only [powModF, h0, if_neg, ih a (n / 2) m hlt, h2]
        conv_rhs =>
          rw [hn, pow_succ, Nat.mul_mod, two_mul, pow_add, Nat.mul_mod (a ^ (n / 2))]
        simp [h0, h2]

/-- Transfer: a cast-and-power computation in `ZMod p` is the fuelled
modular exponentiation over ℕ. -/
theorem zmod_pow_eq_cast_powModF (p a n : Nat) (hn : n < 2 ^ 30) :
    ((a : Nat) : ZMod p) ^ n = ((powModF 30 a n p : Nat) : ZMod p) := by
  rw [powModF_spec 30 a n p hn, ZMod.natCast_mod, Nat.cast_pow]

/-- A natural number that is neither reduced to 1 nor out of range casts to
something other than 1 in `ZMod p`. -/
theorem zmod_natCast_ne_one (p v : Nat) (hp : 1 < p) (hv : v < p) (hne : v ≠ 1) :
    ((v : Nat) : ZMod p) ≠ 1 := by
  haveI : Fact (1 < p) := ⟨hp⟩
  intro h
  have h1 : ((v : Nat) : ZMod p).val = v := ZMod.val_natCast_of_lt hv
  rw [h, ZMod.val_one] at h1
  exact hne h1.symm

/-- 41 is prime. -/
theorem prime_41 : Nat.Prime 41 := by norm_num

/-- 148721 is prime. -/
theorem prime_148721 : Nat.Prime 148721 := by norm_num

/-- 500000003 is prime, by the Lucas certificate with witness 2 and the
factorization 500000002 = 2 * 41 * 41 * 148721. -/
theorem prime_500000003 : Nat.Prime 500000003 := by
  apply lucas_primality 500000003 ((2 : Nat) : ZMod 500000003)
  · rw [show (500000003 : Nat) - 1 = 500000002 from rfl,
      zmod_pow_eq_cast_powModF 500000003 2 500000002 (by norm_num),
      show powModF 30 2 500000002 500000003 = 1 from rfl]
    exact Nat.cast_one
  · intro q hq hdvd
    rw [show (500000003 : Nat) - 1 = 2 * 250000001 from rfl] at hdvd
    rcases (Nat.Prime.dvd_mul hq).mp hdvd with h | h
    · have hq2 : q = 2 := (Nat.prime_dvd_prime_iff_eq hq Nat.prime_two).mp h
      subst hq2
      rw [show ((500000003 : Nat) - 1) / 2 = 250000001 from rfl,
        zmod_pow_eq_cast_powModF 500000003 2 250000001 (by norm_num),
        show powModF 30 2 250000001 500000003 = 500000002 from rfl]
      exact zmod_natCast_ne_one 500000003 500000002 (by norm_num) (by norm_num) (by norm_num)
    · rw [show (250000001 : Nat) = 41 * 6097561 from rfl] at h
      rcases (Nat.Prime.dvd_mul hq).mp h with h2 | h2
      · have hq41 : q = 41 := (Nat.prime_dvd_prime_iff_eq hq prime_41).mp h2
        subst hq41
        rw [show ((500000003 : Nat) - 1) / 41 = 12195122 from rfl,
          zmod_pow_eq_cast_powModF 500000003 2 12195122 (by norm_num),
          show powModF 30 2 12195122 500000003 = 278358512 from rfl]
        exact zmod_natCast_ne_one 500000003 278358512 (by norm_num) (by norm_num) (by norm_num)
      · rw [show (6097561 : Nat) = 41 * 148721 from rfl] at h2
        rcases (Nat.Prime.dvd_mul hq).mp h2 with h3 | h3
        · have hq41 : q = 41 := (Nat.prime_dvd_prime_iff_eq hq prime_41).mp h3
          subst hq41
          rw [show ((500000003 : Nat) - 1) / 41 = 12195122 from rfl,
            zmod_pow_eq_cast_powModF 500000003 2 12195122 (by norm_num),
            show powModF 30 2 12195122 500000003 = 278358512 from rfl]
          exact zmod_natCast_ne_one 500000003 278358512 (by norm_num) (by norm_num)
            (by norm_num)
        · have hq148721 : q = 148721 := (Nat.prime_dvd_prime_iff_eq hq prime_148721).mp h3
          subst hq148721
          rw [show ((500000003 : Nat) - 1) / 148721 = 3362 from rfl,
            zmod_pow_eq_cast_powModF 500000003 2 3362 (by norm_num),
            show powModF 30 2 3362 500000003 = 233858057 from rfl]
          exact zmod_natCast_ne_one 500000003 233858057 (by norm_num) (by norm_num)
            (by norm_num)

/-- The fixed modulus of `_generate_response_id` is prime, by the Lucas
certificate with witness 5 and the factorization
1000000006 = 2 * 500000003. -/
theorem prime_1000000007 : Nat.Prime 1000000007 := by
  apply lucas_primality 1000000007 ((5 : Nat) : ZMod 1000000007)
  · rw [show (1000000007 : Nat) - 1 = 1000000006 from rfl,
      zmod_pow_eq_cast_powModF 1000000007 5 1000000006 (by norm_num),
      show powModF 30 5 1000000006 1000000007 = 1 from rfl]
    exact Nat.cast_one
  · intro q hq hdvd
    rw [show (1000000007 : Nat) - 1 = 2 * 500000003 from rfl] at hdvd
    rcases (Nat.Prime.dvd_mul hq).mp hdvd with h | h
    · have hq2 : q = 2 := (Nat.prime_dvd_prime_iff_eq hq Nat.prime_two).mp h
      subst hq2
      rw [show ((1000000007 : Nat) - 1) / 2 = 500000003 from rfl,
        zmod_pow_eq_cast_powModF 1000000007 5 500000003 (by norm_num),
        show powModF 30 5 500000003 1000000007 = 1000000006 from rfl]
      exact zmod_natCast_ne_one 1000000007 1000000006 (by norm_num) (by norm_num) (by norm_num)
    · have hq5 : q = 500000003 := (Nat.prime_dvd_prime_iff_eq hq prime_500000003).mp h
      subst hq5
      rw [show ((1000000007 : Nat) - 1) / 500000003 = 2 from rfl,
        zmod_pow_eq_cast_powModF 1000000007 5 2 (by norm_num),
        show powModF 30 5 2 1000000007 = 25 from rfl]
      exact zmod_natCast_ne_one 1000000007 25 (by norm_num) (by norm_num) (by norm_num)

/-- A nonzero residue below a prime is coprime to it. -/
theorem gcd_eq_one_of_lt_prime {k p : Nat} (hp : Nat.Prime p) (h0 : 0 < k) (hlt : k < p) :
    Nat.gcd k p = 1 := by
  have hnd : ¬p ∣ k := Nat.not_dvd_of_pos_of_lt h0 hlt
  have h := (Nat.Prime.coprime_iff_not_dvd hp).mpr hnd
  exact Nat.Coprime.symm h

/-- On an argument already in `[0, n)`, `pyPowModInv` succeeds with the
reduced Bezout coefficient whenever the argument is coprime to the
modulus. -/
theorem pyPowModInv_ok_of_range (a : Int) (n : Nat) (h0 : 0 ≤ a) (hlt : a < (n : Int))
    (hg : Nat.gcd a.toNat n = 1) :
    pyPowModInv a n = .ok ((Nat.gcdA a.toNat n) % (n : Int)) := by
  have hn0 : n ≠ 0 := by
    rintro rfl
    simp only [Nat.cast_zero] at hlt
    omega
  have he : a % (n : Int) = a := Int.emod_eq_of_lt h0 hlt
  unfold pyPowModInv
  rw [if_neg hn0, he, if_pos hg]

/-- A successful `pyPowModInv` outcome lifts to `_generate_response_id` on
an integer input. -/
theorem gen_int_ok {t y : Int} (h : pyPowModInv t 1000000007 = .ok y) :
    _generate_response_id (.int t) = .ok y := by
  have hb : (pyInt (JVal.int t)).bind (fun n => pyPowModInv n 1000000007) =
      pyPowModInv t 1000000007 := rfl
  unfold _generate_response_id
  rw [hb, h]

/-- The reduced Bezout coefficient is a modular inverse: multiplying by the
argument gives 1 modulo n when the argument is coprime to n. -/
theorem gcdA_emod_mul_self (m n : Nat) (h : Nat.gcd m n = 1) :
    ((m : Int) * (Nat.gcdA m n % (n : Int))) % (n : Int) = 1 % (n : Int) := by
  have hb : (1 : Int) = (m : Int) * Nat.gcdA m n + (n : Int) * Nat.gcdB m n := by
    have h2 := Nat.gcd_eq_gcd_ab m n
    rw [h] at h2
    exact_mod_cast h2
  have key : ((m : Int) * (Nat.gcdA m n % (n : Int))) % (n : Int)
      = ((m : Int) * Nat.gcdA m n) % (n : Int) := by
    conv_lhs => rw [Int.mul_emod]
    conv_rhs => rw [Int.mul_emod]
    rw [Int.emod_emod_of_dvd _ dvd_rfl]
  have key2 : ((m : Int) * Nat.gcdA m n + (n : Int) * Nat.gcdB m n) % (n : Int)
      = ((m : Int) * Nat.gcdA m n) % (n : Int) := by
    rw [mul_comm (n : Int) (Nat.gcdB m n), Int.add_mul_emod_self]
  rw [key, ← key2, ← hb]

/-- An integer with a multiplicative inverse modulo a prime is coprime to
that prime. -/
theorem gcd_toNat_eq_one_of_inv {y : Int} {p : Nat} (hp : Nat.Prime p) (h0 : 0 ≤ y)
    (hmul : ∃ m : Int, (m * y) % (p : Int) = 1 % (p : Int)) :
    Nat.gcd y.toNat p = 1 := by
  rcases hmul with ⟨m, hm⟩
  by_contra hne
  have hd : Nat.gcd y.toNat p ∣ p := Nat.gcd_dvd_right _ _
  rcases Nat.Prime.eq_one_or_self_of_dvd hp _ hd with h1 | h1
  · exact hne h1
  · have hpy : (p : Int) ∣ y := by
      have hdy : p ∣ y.toNat := h1 ▸ Nat.gcd_dvd_left _ _
      have := Int.natCast_dvd_natCast.mpr hdy
      rwa [Int.toNat_of_nonneg h0] at this
    have hy0 : y % (p : Int) = 0 := Int.emod_eq_zero_of_dvd hpy
    rw [Int.mul_emod, hy0, mul_zero, Int.zero_emod] at hm
    have h1p : (1 : Int) % (p : Int) = 1 :=
      Int.emod_eq_of_lt (by norm_num) (by exact_mod_cast hp.one_lt)
    rw [h1p] at hm
    exact absurd hm (by norm_num)

/-- C3: for every integer test id in `[1, 1000000006]`, applying the
response-identifier function twice returns the original value —
`modular_inverse` is an involution on the nonzero residues modulo the fixed
prime 1,000,000,007. -/
theorem responseId_involution (t : Int) (h1 : 1 ≤ t) (h2 : t ≤ 1000000006) :
    ∃ y : Int, _generate_response_id (.int t) = .ok y ∧
      _generate_response_id (.int y) = .ok t := by
  have hp : Nat.Prime 1000000007 := prime_1000000007
  have h0 : 0 ≤ t := by linarith
  have hlt : t < ((1000000007 : Nat) : Int) := by
    have : ((1000000007 : Nat) : Int) = (1000000007 : Int) := by norm_num
    rw [this]
    linarith
  have htn_pos : 0 < t.toNat := by omega
  have htn_lt : t.toNat < 1000000007 := by omega
  have hg1 : Nat.gcd t.toNat 1000000007 = 1 := gcd_eq_one_of_lt_prime hp htn_pos htn_lt
  have hgen1 : _generate_response_id (.int t) =
      .ok (Nat.gcdA t.toNat 1000000007 % ((1000000007 : Nat) : Int)) :=
    gen_int_ok (pyPowModInv_ok_of_range t 1000000007 h0 hlt hg1)
  set y : Int := Nat.gcdA t.toNat 1000000007 % ((1000000007 : Nat) : Int) with hy_def
  have hy0 : 0 ≤ y := Int.emod_nonneg _ (by norm_num)
  have hylt : y < ((1000000007 : Nat) : Int) := Int.emod_lt_of_pos _ (by norm_num)
  have hmul1 : ((t.toNat : Int) * y) % ((1000000007 : Nat) : Int) =
      1 % ((1000000007 : Nat) : Int) := gcdA_emod_mul_self t.toNat 1000000007 hg1
  have htt : (t.toNat : Int) = t := Int.toNat_of_nonneg h0
  rw [htt] at hmul1
  have hg2 : Nat.gcd y.toNat 1000000007 = 1 :=
    gcd_toNat_eq_one_of_inv hp hy0 ⟨t, hmul1⟩
  have hgen2 : _generate_response_id (.int y) =
      .ok (Nat.gcdA y.toNat 1000000007 % ((1000000007 : Nat) : Int)) :=
    gen_int_ok (pyPowModInv_ok_of_range y 1000000007 hy0 hylt hg2)
  set z : Int := Nat.gcdA y.toNat 1000000007 % ((1000000007 : Nat) : Int) with hz_def
  have hz0 : 0 ≤ z := Int.emod_nonneg _ (by norm_num)
  have hzlt : z < ((1000000007 : Nat) : Int) := Int.emod_lt_of_pos _ (by norm_num)
  have hmul2 : ((y.toNat : Int) * z) % ((1000000007 : Nat) : Int) =
      1 % ((1000000007 : Nat) : Int) := gcdA_emod_mul_self y.toNat 1000000007 hg2
  have hyy : (y.toNat : Int) = y := Int.toNat_of_nonneg hy0
  rw [hyy] at hmul2
  have e1 : Int.ModEq ((1000000007 : Nat) : Int) (t * y) 1 := hmul1
  have e2 : Int.ModEq ((1000000007 : Nat) : Int) (y * z) 1 := hmul2
  have hcong : Int.ModEq ((1000000007 : Nat) : Int) z t := by
    calc z = z * 1 := by ring
      _ ≡ z * (t * y) [ZMOD ((1000000007 : Nat) : Int)] := (Int.ModEq.mul_left z e1.symm)
      _ = t * (y * z) := by ring
      _ ≡ t * 1 [ZMOD ((1000000007 : Nat) : Int)] := (Int.ModEq.mul_left t e2)
      _ = t := by ring
  have hz_eq : z = t := by
    have hc : z % ((1000000007 : Nat) : Int) = t % ((1000000007 : Nat) : Int) := hcong
    rwa [Int.emod_eq_of_lt hz0 hzlt, Int.emod_eq_of_lt h0 hlt] at hc
  exact ⟨y, hgen1, by rw [hgen2, hz_eq]⟩

/-- C3 witness: the involution at the concrete test id 2. -/
theorem responseId_involution_witness :
    ∃ y : Int, _generate_response_id (.int 2) = .ok y ∧
      _generate_response_id (.int y) = .ok 2 :=
  responseId_involution 2 (by norm_num) (by norm_num)
